import Mathlib

/-!
# Verification of `camera.py` (Jetson Orin Nano CSI camera viewer)

Shallow embedding of `src/camera.py` and proofs of the specified
properties.  The script has two parts:

* `gstreamer_pipeline` — a pure string template: a GStreamer pipeline
  description with seven integer parameters substituted (Python `"%d"`
  formatting).  Strings are modelled as Lean `String`s built from their
  character lists; `"%d"` substitution of a (possibly negative) Python
  integer is modelled by `intRepr : Int → List Char`.

* `show_camera` — an effectful capture/display loop around OpenCV calls.
  The external library (OpenCV) is modelled by an oracle `Env` giving the
  result of each call (did the capture open, did the `i`-th read succeed,
  the `i`-th window-property value, the `i`-th `waitKey` result, and
  whether rendering raises an unhandled error on iteration `i`).  Running
  `show_camera` against an oracle produces the trace of external calls it
  performs (an `Event` list) together with an `Outcome`: `normal`
  (returned), `raised` (an unhandled error propagated out of the loop,
  after the `finally` block ran), or `fuelOut` (the loop was still
  running when the step budget ran out, so the `finally` block has not
  run yet).
-/

namespace Camera

/-! ## Decimal rendering of Python integers (`"%d"` formatting) -/

/-- The character for a decimal digit `n < 10`. -/
def digitChar (n : Nat) : Char := Char.ofNat (48 + n)

/-- Digits of `n`, most significant first; `fuel` bounds the recursion
(`fuel = n + 1` always suffices). -/
def natDigitsAux : Nat → Nat → List Char
  | 0, _ => []
  | fuel + 1, n =>
    if n < 10 then [digitChar n] else natDigitsAux fuel (n / 10) ++ [digitChar (n % 10)]

/-- Decimal representation of a natural number. -/
def natRepr (n : Nat) : List Char := natDigitsAux (n + 1) n

/-- Decimal representation of an integer, as produced by Python `"%d"`:
a minus sign followed by the digits when negative. -/
def intRepr (i : Int) : List Char :=
  if i < 0 then '-' :: natRepr i.natAbs else natRepr i.natAbs

/-! ## Module-level constants of `camera.py` -/

/-- `WINDOW_TITLE = "CSI Camera"`. -/
def WINDOW_TITLE : String := "CSI Camera"

/-- `DEFAULT_FLIP_METHOD = 0`. -/
def DEFAULT_FLIP_METHOD : Int := 0

/-- `EXIT_KEYS = {27, ord("q")}` — escape and lowercase q (code 113). -/
def EXIT_KEYS : List Int := [27, ('q'.toNat : Int)]

/-! ## `gstreamer_pipeline` -/

/-- `gstreamer_pipeline` from `camera.py`: the `"%d"`-format template
applied to `(sensor_id, capture_width, capture_height, framerate,
flip_method, display_width, display_height)`, in the source's argument
order.  Parameters appear in the source's parameter order with the
source's defaults. -/
def gstreamer_pipeline (sensor_id : Int := 0) (capture_width : Int := 1920)
    (capture_height : Int := 1080) (display_width : Int := 1920)
    (display_height : Int := 1080) (framerate : Int := 60)
    (flip_method : Int := DEFAULT_FLIP_METHOD) : String :=
  String.mk (
    "nvarguscamerasrc sensor-id=".data ++ intRepr sensor_id ++
    " ! video/x-raw(memory:NVMM), width=(int)".data ++ intRepr capture_width ++
    ", height=(int)".data ++ intRepr capture_height ++
    ", framerate=(fraction)".data ++ intRepr framerate ++
    "/1 ! nvvidconv flip-method=".data ++ intRepr flip_method ++
    " ! video/x-raw, width=(int)".data ++ intRepr display_width ++
    ", height=(int)".data ++ intRepr display_height ++
    ", format=(string)BGRx ! videoconvert ! video/x-raw, format=(string)BGR ! appsink".data)

/-! ## Template view of the pipeline string

The source builds the descriptor by substituting a 7-tuple into a fixed
format string.  `pipelineTemplate` is that format string split at its
`"%d"` slots; `renderTemplate` performs the substitution.  This is the
spec-facing view used to state "each parameter occurs exactly once, in
the documented order". -/

/-- The seven parameters of a capture configuration. -/
inductive Field
  | sensorId
  | captureWidth
  | captureHeight
  | framerate
  | flipMethod
  | displayWidth
  | displayHeight
deriving DecidableEq

/-- A piece of the format template: a literal segment or a `"%d"` slot. -/
inductive Piece
  | lit (s : String)
  | slot (f : Field)

/-- The format string of `gstreamer_pipeline`, split at its `"%d"` slots. -/
def pipelineTemplate : List Piece :=
  [Piece.lit "nvarguscamerasrc sensor-id=", Piece.slot Field.sensorId,
   Piece.lit " ! video/x-raw(memory:NVMM), width=(int)", Piece.slot Field.captureWidth,
   Piece.lit ", height=(int)", Piece.slot Field.captureHeight,
   Piece.lit ", framerate=(fraction)", Piece.slot Field.framerate,
   Piece.lit "/1 ! nvvidconv flip-method=", Piece.slot Field.flipMethod,
   Piece.lit " ! video/x-raw, width=(int)", Piece.slot Field.displayWidth,
   Piece.lit ", height=(int)", Piece.slot Field.displayHeight,
   Piece.lit ", format=(string)BGRx ! videoconvert ! video/x-raw, format=(string)BGR ! appsink"]

/-- The value assignment of a capture configuration. -/
def fieldValue (sensor_id capture_width capture_height display_width
    display_height framerate flip_method : Int) : Field → Int
  | Field.sensorId => sensor_id
  | Field.captureWidth => capture_width
  | Field.captureHeight => capture_height
  | Field.framerate => framerate
  | Field.flipMethod => flip_method
  | Field.displayWidth => display_width
  | Field.displayHeight => display_height

/-- Render one template piece. -/
def renderPiece (v : Field → Int) : Piece → List Char
  | Piece.lit s => s.data
  | Piece.slot f => intRepr (v f)

/-- Render a template under a value assignment. -/
def renderTemplate (v : Field → Int) : List Piece → List Char
  | [] => []
  | p :: rest => renderPiece v p ++ renderTemplate v rest

/-- The `"%d"` slots of a template, in order. -/
def templateSlots : List Piece → List Field
  | [] => []
  | Piece.lit _ :: rest => templateSlots rest
  | Piece.slot f :: rest => f :: templateSlots rest

/-! ## Substring machinery -/

/-- `pat` is a prefix of `s` (on character lists). -/
def isPrefixOfL : List Char → List Char → Bool
  | [], _ => true
  | _ :: _, [] => false
  | a :: as, b :: bs => a == b && isPrefixOfL as bs

/-- Number of positions of `s` at which `pat` starts. -/
def countOccsL (pat : List Char) : List Char → Nat
  | [] => 0
  | c :: rest => (if isPrefixOfL pat (c :: rest) then 1 else 0) + countOccsL pat rest

/-- `pat` occurs somewhere in `s` (executable). -/
def containsSubstr (s pat : String) : Bool := decide (0 < countOccsL pat.data s.data)

/-- `pat` occurs somewhere in `s` (propositional form). -/
def OccursIn (pat s : List Char) : Prop := ∃ a b, s = a ++ pat ++ b

/-! ## The capture/display loop `show_camera`

External (OpenCV) calls are modelled by an oracle and the run is
reflected as a trace of events, one per external call performed. -/

/-- One external call performed by `show_camera`, in program order.
`readFrame ok` records the success flag of `video_capture.read()`;
`winPropCheck v` records the value returned by `getWindowProperty`;
`imshow` records a completed render of a frame; `waitKey raw` records a
key poll whose (unmasked) result was `raw`. -/
inductive Event
  | printLine (s : String)
  | openSource (desc : String)
  | namedWindow (title : String)
  | readFrame (ok : Bool)
  | winPropCheck (v : Int)
  | imshow
  | waitKey (raw : Int)
  | release
  | destroyAllWindows
deriving DecidableEq

/-- How a run of `show_camera` ended: `normal` (the function returned),
`raised` (an unhandled error propagated out after the `finally` block
ran), `fuelOut` (the loop was still running when the step budget was
exhausted — the `finally` block has not run yet). -/
inductive Outcome
  | normal
  | raised
  | fuelOut
deriving DecidableEq

/-- Oracle for the external library: `opened` is the result of
`video_capture.isOpened()`; for loop iteration `i` (0-based),
`readOk i` is the success flag of `read()`, `winProp i` the value of
`getWindowProperty`, `keyRaw i` the raw `waitKey` result (any integer;
OpenCV returns `-1` when no key is pressed), and `renderRaises i`
whether `imshow` raises an unhandled error on that iteration. -/
structure Env where
  opened : Bool
  readOk : Nat → Bool
  winProp : Nat → Int
  keyRaw : Nat → Int
  renderRaises : Nat → Bool

/-- The `while True:` loop body of `show_camera`, from iteration `i`,
with a step budget.  Mirrors lines 49–62 of `camera.py`: read a frame
(break with a warning on failure), check `getWindowProperty < 0` (silent
break), render, poll a key, mask it with `& 0xFF`, and break if it is in
`EXIT_KEYS`. -/
def captureLoop (env : Env) : Nat → Nat → List Event × Outcome
  | _, 0 => ([], Outcome.fuelOut)
  | i, fuel + 1 =>
    if env.readOk i = false then
      ([Event.readFrame false, Event.printLine "Warning: Failed to read frame from camera"],
       Outcome.normal)
    else if env.winProp i < 0 then
      ([Event.readFrame true, Event.winPropCheck (env.winProp i)], Outcome.normal)
    else if env.renderRaises i then
      ([Event.readFrame true, Event.winPropCheck (env.winProp i)], Outcome.raised)
    else if Int.land (env.keyRaw i) 255 ∈ EXIT_KEYS then
      ([Event.readFrame true, Event.winPropCheck (env.winProp i), Event.imshow,
        Event.waitKey (env.keyRaw i)], Outcome.normal)
    else
      let next := captureLoop env (i + 1) fuel
      ([Event.readFrame true, Event.winPropCheck (env.winProp i), Event.imshow,
        Event.waitKey (env.keyRaw i)] ++ next.1, next.2)

/-- `show_camera` from `camera.py`: build the default pipeline with the
given `flip_method`, print it, open the source (return after one error
line if that fails), create the window, run the loop, and — in a
`finally` block, hence also when the loop raised — release the capture
and destroy all windows.  On the open-failure path the function returns
before the `try` block, so no release is performed there. -/
def show_camera (env : Env) (fuel : Nat) (flip_method : Int := DEFAULT_FLIP_METHOD) :
    List Event × Outcome :=
  let pipeline := gstreamer_pipeline 0 1920 1080 1920 1080 60 flip_method
  if env.opened = false then
    ([Event.printLine pipeline, Event.openSource pipeline,
      Event.printLine "Error: Unable to open camera"], Outcome.normal)
  else
    let body := captureLoop env 0 fuel
    match body.2 with
    | Outcome.fuelOut =>
      ([Event.printLine pipeline, Event.openSource pipeline,
        Event.namedWindow WINDOW_TITLE] ++ body.1, Outcome.fuelOut)
    | o =>
      ([Event.printLine pipeline, Event.openSource pipeline,
        Event.namedWindow WINDOW_TITLE] ++ body.1 ++
       [Event.release, Event.destroyAllWindows], o)

/-! ## Trace observations -/

/-- Is this event a `release()` of the capture handle? -/
def isRelease : Event → Bool
  | Event.release => true
  | _ => false

/-- Is this event a `destroyAllWindows()`? -/
def isDestroy : Event → Bool
  | Event.destroyAllWindows => true
  | _ => false

/-- Is this event a completed frame render (`imshow`)? -/
def isRender : Event → Bool
  | Event.imshow => true
  | _ => false

/-- Is this event a frame read attempt? -/
def isRead : Event → Bool
  | Event.readFrame _ => true
  | _ => false

/-- Is this event a line printed to standard output? -/
def isPrint : Event → Bool
  | Event.printLine _ => true
  | _ => false

/-- Is this event the frame-read warning line? -/
def isWarn : Event → Bool
  | Event.printLine s => s == "Warning: Failed to read frame from camera"
  | _ => false

/-- Is this event the open-failure error line? -/
def isOpenErr : Event → Bool
  | Event.printLine s => s == "Error: Unable to open camera"
  | _ => false

/-- Is this event a window creation (`namedWindow`)? -/
def isWindowCreate : Event → Bool
  | Event.namedWindow _ => true
  | _ => false

/-- Number of events of a trace satisfying `p`. -/
def count (p : Event → Bool) (t : List Event) : Nat := t.countP p

/-! ## Normal loop iterations -/

/-- Iteration `i` runs to completion and continues: the read succeeds,
the window property is non-negative, rendering does not raise, and the
masked key is not an exit key. -/
def continuing (env : Env) (i : Nat) : Prop :=
  env.readOk i = true ∧ 0 ≤ env.winProp i ∧ env.renderRaises i = false ∧
    Int.land (env.keyRaw i) 255 ∉ EXIT_KEYS

instance (env : Env) (i : Nat) : Decidable (continuing env i) :=
  inferInstanceAs (Decidable (_ ∧ _ ∧ _ ∧ _))

/-- The trace of one completed, continuing loop iteration. -/
def iterBlock (env : Env) (i : Nat) : List Event :=
  [Event.readFrame true, Event.winPropCheck (env.winProp i), Event.imshow,
   Event.waitKey (env.keyRaw i)]

/-- The trace of `k` completed, continuing iterations starting at `i`. -/
def blocksFrom (env : Env) (i : Nat) : Nat → List Event
  | 0 => []
  | k + 1 => iterBlock env i ++ blocksFrom env (i + 1) k

/-- The descriptor `show_camera` builds: all defaults except the flip code. -/
def defaultDesc (flip_method : Int) : String :=
  gstreamer_pipeline 0 1920 1080 1920 1080 60 flip_method

/-! ## Concrete oracles used as evaluation inputs -/

/-- Oracle for a camera that fails to open. -/
def envOpenFail : Env :=
  { opened := false, readOk := fun _ => true, winProp := fun _ => 1,
    keyRaw := fun _ => 0, renderRaises := fun _ => false }

/-- Oracle whose frame reads succeed twice and then fail. -/
def envReadFail : Env :=
  { opened := true, readOk := fun i => decide (i < 2), winProp := fun _ => 1,
    keyRaw := fun _ => 0, renderRaises := fun _ => false }

/-- Oracle that reports the `q` key (as the raw code `-399`, whose low
eight bits are 113) on iteration 2. -/
def envExitKey : Env :=
  { opened := true, readOk := fun _ => true, winProp := fun _ => 1,
    keyRaw := fun i => if i < 2 then 0 else -399, renderRaises := fun _ => false }

/-- Oracle whose window vanishes on iteration 1. -/
def envWinGone : Env :=
  { opened := true, readOk := fun _ => true, winProp := fun i => if i < 1 then 1 else -1,
    keyRaw := fun _ => 0, renderRaises := fun _ => false }

/-- Oracle whose render raises an unhandled error on iteration 1. -/
def envRaises : Env :=
  { opened := true, readOk := fun _ => true, winProp := fun _ => 1,
    keyRaw := fun _ => 0, renderRaises := fun i => decide (1 ≤ i) }

/-! ## Unfolding lemmas for the loop -/

theorem captureLoop_read_fail (env : Env) (i fuel : Nat) (h : env.readOk i = false) :
    captureLoop env i (fuel + 1) =
      ([Event.readFrame false, Event.printLine "Warning: Failed to read frame from camera"],
       Outcome.normal) := by
  simp [captureLoop, h]

theorem captureLoop_win_gone (env : Env) (i fuel : Nat)
    (hr : env.readOk i = true) (hw : env.winProp i < 0) :
    captureLoop env i (fuel + 1) =
      ([Event.readFrame true, Event.winPropCheck (env.winProp i)], Outcome.normal) := by
  simp [captureLoop, hr, hw]

theorem captureLoop_raises (env : Env) (i fuel : Nat)
    (hr : env.readOk i = true) (hw : 0 ≤ env.winProp i) (he : env.renderRaises i = true) :
    captureLoop env i (fuel + 1) =
      ([Event.readFrame true, Event.winPropCheck (env.winProp i)], Outcome.raised) := by
  simp [captureLoop, hr, Int.not_lt.mpr hw, he]

theorem captureLoop_exit_key (env : Env) (i fuel : Nat)
    (hr : env.readOk i = true) (hw : 0 ≤ env.winProp i) (he : env.renderRaises i = false)
    (hk : Int.land (env.keyRaw i) 255 ∈ EXIT_KEYS) :
    captureLoop env i (fuel + 1) = (iterBlock env i, Outcome.normal) := by
  simp [captureLoop, hr, Int.not_lt.mpr hw, he, hk, iterBlock]

theorem captureLoop_continuing_step (env : Env) (i fuel : Nat) (h : continuing env i) :
    captureLoop env i (fuel + 1) =
      (iterBlock env i ++ (captureLoop env (i + 1) fuel).1,
       (captureLoop env (i + 1) fuel).2) := by
  obtain ⟨hr, hw, he, hk⟩ := h
  simp [captureLoop, hr, Int.not_lt.mpr hw, he, hk, iterBlock]

/-- Unrolling `k` continuing iterations from iteration `i`. -/
theorem captureLoop_unroll (env : Env) :
    ∀ (k i fuel : Nat), (∀ m, m < k → continuing env (i + m)) →
      captureLoop env i (k + fuel) =
        (blocksFrom env i k ++ (captureLoop env (i + k) fuel).1,
         (captureLoop env (i + k) fuel).2) := by
  intro k
  induction k with
  | zero => intro i fuel _; simp [blocksFrom]
  | succ k ih =>
    intro i fuel h
    have hstep : continuing env i := by simpa using h 0 (Nat.succ_pos k)
    have he : k + 1 + fuel = (k + fuel) + 1 := by omega
    rw [he, captureLoop_continuing_step env i (k + fuel) hstep]
    have hrest : ∀ m, m < k → continuing env (i + 1 + m) := by
      intro m hm
      have := h (m + 1) (by omega)
      simpa [Nat.add_assoc, Nat.add_comm, Nat.add_left_comm] using this
    rw [ih (i + 1) fuel hrest]
    have hidx : i + 1 + k = i + (k + 1) := by omega
    simp [blocksFrom, hidx, List.append_assoc]

/-! ## Counting lemmas -/

theorem count_append (p : Event → Bool) (a b : List Event) :
    count p (a ++ b) = count p a + count p b := by
  simp [count, List.countP_append]

/-- A predicate with a fixed per-iteration count over continuing blocks. -/
theorem count_blocksFrom (p : Event → Bool) (env : Env) (c : Nat)
    (hp : ∀ i, count p (iterBlock env i) = c) :
    ∀ k i, count p (blocksFrom env i k) = c * k := by
  intro k
  induction k with
  | zero => intro i; simp [blocksFrom, count]
  | succ k ih =>
    intro i
    rw [blocksFrom, count_append, hp i, ih (i + 1)]
    ring

theorem count_render_iterBlock (env : Env) (i : Nat) : count isRender (iterBlock env i) = 1 := by
  simp [count, iterBlock, List.countP_cons, isRender]

theorem count_read_iterBlock (env : Env) (i : Nat) : count isRead (iterBlock env i) = 1 := by
  simp [count, iterBlock, List.countP_cons, isRead]

theorem count_render_blocksFrom (env : Env) (k i : Nat) :
    count isRender (blocksFrom env i k) = k := by
  simpa using count_blocksFrom isRender env 1 (count_render_iterBlock env) k i

theorem count_read_blocksFrom (env : Env) (k i : Nat) :
    count isRead (blocksFrom env i k) = k := by
  simpa using count_blocksFrom isRead env 1 (count_read_iterBlock env) k i

theorem count_print_blocksFrom (env : Env) (k i : Nat) :
    count isPrint (blocksFrom env i k) = 0 := by
  simpa using count_blocksFrom isPrint env 0
    (fun i => by simp [count, iterBlock, List.countP_cons, isPrint]) k i

theorem count_warn_blocksFrom (env : Env) (k i : Nat) :
    count isWarn (blocksFrom env i k) = 0 := by
  simpa using count_blocksFrom isWarn env 0
    (fun i => by simp [count, iterBlock, List.countP_cons, isWarn]) k i

theorem count_release_blocksFrom (env : Env) (k i : Nat) :
    count isRelease (blocksFrom env i k) = 0 := by
  simpa using count_blocksFrom isRelease env 0
    (fun i => by simp [count, iterBlock, List.countP_cons, isRelease]) k i

theorem count_destroy_blocksFrom (env : Env) (k i : Nat) :
    count isDestroy (blocksFrom env i k) = 0 := by
  simpa using count_blocksFrom isDestroy env 0
    (fun i => by simp [count, iterBlock, List.countP_cons, isDestroy]) k i

/-- Events the loop body never emits: a predicate false on every
loop-emitted event counts zero over any loop trace. -/
theorem count_captureLoop_zero (p : Event → Bool) (env : Env)
    (h1 : ∀ b, p (Event.readFrame b) = false)
    (h2 : p (Event.printLine "Warning: Failed to read frame from camera") = false)
    (h3 : ∀ v, p (Event.winPropCheck v) = false)
    (h4 : p Event.imshow = false)
    (h5 : ∀ r, p (Event.waitKey r) = false) :
    ∀ fuel i, count p (captureLoop env i fuel).1 = 0 := by
  intro fuel
  induction fuel with
  | zero => intro i; simp [captureLoop, count]
  | succ fuel ih =>
    intro i
    by_cases hr : env.readOk i = false
    · rw [captureLoop_read_fail env i fuel hr]
      simp [count, List.countP_cons, h1, h2]
    · have hr' : env.readOk i = true := by
        cases h : env.readOk i
        · exact absurd h hr
        · rfl
      by_cases hw : env.winProp i < 0
      · rw [captureLoop_win_gone env i fuel hr' hw]
        simp [count, List.countP_cons, h1, h3]
      · have hw' : 0 ≤ env.winProp i := Int.not_lt.mp hw
        by_cases he : env.renderRaises i = true
        · rw [captureLoop_raises env i fuel hr' hw' he]
          simp [count, List.countP_cons, h1, h3]
        · have he' : env.renderRaises i = false := by
            cases h : env.renderRaises i
            · rfl
            · exact absurd h he
          by_cases hk : Int.land (env.keyRaw i) 255 ∈ EXIT_KEYS
          · rw [captureLoop_exit_key env i fuel hr' hw' he' hk]
            simp [count, iterBlock, List.countP_cons, h1, h3, h4, h5]
          · rw [captureLoop_continuing_step env i fuel ⟨hr', hw', he', hk⟩]
            rw [count_append, ih (i + 1)]
            simp [count, iterBlock, List.countP_cons, h1, h3, h4, h5]

theorem count_release_captureLoop (env : Env) (fuel i : Nat) :
    count isRelease (captureLoop env i fuel).1 = 0 :=
  count_captureLoop_zero isRelease env (fun _ => rfl) rfl (fun _ => rfl) rfl (fun _ => rfl)
    fuel i

theorem count_destroy_captureLoop (env : Env) (fuel i : Nat) :
    count isDestroy (captureLoop env i fuel).1 = 0 :=
  count_captureLoop_zero isDestroy env (fun _ => rfl) rfl (fun _ => rfl) rfl (fun _ => rfl)
    fuel i

/-- Every nonempty loop trace starts with (hence contains) a frame read. -/
theorem count_read_captureLoop_pos (env : Env) (fuel i : Nat) :
    1 ≤ count isRead (captureLoop env (i) (fuel + 1)).1 := by
  by_cases hr : env.readOk i = false
  · rw [captureLoop_read_fail env i fuel hr]; simp [count, List.countP_cons, isRead]
  · have hr' : env.readOk i = true := by
      cases h : env.readOk i
      · exact absurd h hr
      · rfl
    by_cases hw : env.winProp i < 0
    · rw [captureLoop_win_gone env i fuel hr' hw]; simp [count, List.countP_cons, isRead]
    · have hw' : 0 ≤ env.winProp i := Int.not_lt.mp hw
      by_cases he : env.renderRaises i = true
      · rw [captureLoop_raises env i fuel hr' hw' he]; simp [count, List.countP_cons, isRead]
      · have he' : env.renderRaises i = false := by
          cases h : env.renderRaises i
          · rfl
          · exact absurd h he
        by_cases hk : Int.land (env.keyRaw i) 255 ∈ EXIT_KEYS
        · rw [captureLoop_exit_key env i fuel hr' hw' he' hk]
          simp [count, iterBlock, List.countP_cons, isRead]
        · rw [captureLoop_continuing_step env i fuel ⟨hr', hw', he', hk⟩]
          rw [count_append]
          simp [count, iterBlock, List.countP_cons, isRead]

/-! ## Unfolding lemmas for `show_camera` -/

theorem show_camera_open_fail (env : Env) (fuel : Nat) (flip : Int)
    (h : env.opened = false) :
    show_camera env fuel flip =
      ([Event.printLine (defaultDesc flip), Event.openSource (defaultDesc flip),
        Event.printLine "Error: Unable to open camera"], Outcome.normal) := by
  simp [show_camera, h, defaultDesc]

theorem show_camera_opened (env : Env) (fuel : Nat) (flip : Int)
    (h : env.opened = true) (hno : (captureLoop env 0 fuel).2 ≠ Outcome.fuelOut) :
    show_camera env fuel flip =
      ([Event.printLine (defaultDesc flip), Event.openSource (defaultDesc flip),
        Event.namedWindow WINDOW_TITLE] ++ (captureLoop env 0 fuel).1 ++
       [Event.release, Event.destroyAllWindows], (captureLoop env 0 fuel).2) := by
  simp only [show_camera, h]
  cases ho : (captureLoop env 0 fuel).2 with
  | fuelOut => exact absurd ho hno
  | normal => simp [ho, defaultDesc]
  | raised => simp [ho, defaultDesc]

theorem show_camera_fuelOut (env : Env) (fuel : Nat) (flip : Int)
    (h : env.opened = true) (ho : (captureLoop env 0 fuel).2 = Outcome.fuelOut) :
    show_camera env fuel flip =
      ([Event.printLine (defaultDesc flip), Event.openSource (defaultDesc flip),
        Event.namedWindow WINDOW_TITLE] ++ (captureLoop env 0 fuel).1,
       Outcome.fuelOut) := by
  simp [show_camera, h, ho, defaultDesc]

/-! ## `& 0xFF` is reduction modulo 256

Python's `&` acts on unbounded two's-complement integers, as does
`Int.land`; the source masks the `waitKey` result with `& 0xFF`. -/

theorem nat_land_255 (n : Nat) : n &&& 255 = n % 256 := by
  apply Nat.eq_of_testBit_eq
  intro i
  rw [Nat.testBit_land]
  rw [show (256 : Nat) = 2 ^ 8 from rfl, Nat.testBit_mod_two_pow]
  rw [show (255 : Nat) = 2 ^ 8 - 1 from rfl, Nat.testBit_two_pow_sub_one]
  cases Nat.lt_or_ge i 8 with
  | inl h => simp [h]
  | inr h => simp [Nat.not_lt_of_ge h]

theorem nat_ldiff_255 (m : Nat) : Nat.ldiff 255 m = 255 - m % 256 := by
  have hx : Nat.ldiff 255 m = 255 ^^^ (255 &&& m) := by
    apply Nat.eq_of_testBit_eq
    intro i
    rw [Nat.testBit_ldiff, Nat.testBit_xor, Nat.testBit_land]
    cases Nat.testBit 255 i <;> cases Nat.testBit m i <;> rfl
  rw [hx, Nat.land_comm, nat_land_255 m]
  have hy : m % 256 < 256 := Nat.mod_lt m (by omega)
  revert hy
  have : ∀ y, y < 256 → 255 ^^^ y = 255 - y := by
    set_option maxRecDepth 4000 in decide
  exact this (m % 256)

/-- `k & 0xFF = k % 256` for every (two's-complement) integer `k`. -/
theorem int_land_255 (k : Int) : Int.land k 255 = k % 256 := by
  cases k with
  | ofNat n =>
    show ((n &&& 255 : Nat) : Int) = ((n : Nat) : Int) % 256
    rw [nat_land_255 n]
    omega
  | negSucc n =>
    show ((Nat.ldiff 255 n : Nat) : Int) = Int.negSucc n % 256
    rw [nat_ldiff_255 n]
    have hm : Int.negSucc n = -(n : Int) - 1 := by
      rw [Int.negSucc_eq]; ring
    rw [hm]
    have hlt : n % 256 < 256 := Nat.mod_lt _ (by omega)
    omega

/-! ## The descriptor string is not one of the diagnostic messages -/

theorem data_defaultDesc_head (flip : Int) :
    ∃ rest, (defaultDesc flip).data = 'n' :: rest :=
  ⟨_, rfl⟩

theorem defaultDesc_ne_openErr (flip : Int) :
    defaultDesc flip ≠ "Error: Unable to open camera" := by
  intro hcontra
  obtain ⟨rest, hr⟩ := data_defaultDesc_head flip
  have hdata : 'n' :: rest = ("Error: Unable to open camera").data := by
    rw [← hr, hcontra]
  have hE : ("Error: Unable to open camera").data =
      'E' :: "rror: Unable to open camera".data := rfl
  rw [hE] at hdata
  injection hdata with h1 _
  exact absurd h1 (by decide)

theorem defaultDesc_ne_warn (flip : Int) :
    defaultDesc flip ≠ "Warning: Failed to read frame from camera" := by
  intro hcontra
  obtain ⟨rest, hr⟩ := data_defaultDesc_head flip
  have hdata : 'n' :: rest = ("Warning: Failed to read frame from camera").data := by
    rw [← hr, hcontra]
  have hW : ("Warning: Failed to read frame from camera").data =
      'W' :: "arning: Failed to read frame from camera".data := rfl
  rw [hW] at hdata
  injection hdata with h1 _
  exact absurd h1 (by decide)

theorem isOpenErr_defaultDesc (flip : Int) :
    isOpenErr (Event.printLine (defaultDesc flip)) = false := by
  show (defaultDesc flip == "Error: Unable to open camera") = false
  rw [beq_eq_false_iff_ne]
  exact defaultDesc_ne_openErr flip

theorem isWarn_defaultDesc (flip : Int) :
    isWarn (Event.printLine (defaultDesc flip)) = false := by
  show (defaultDesc flip == "Warning: Failed to read frame from camera") = false
  rw [beq_eq_false_iff_ne]
  exact defaultDesc_ne_warn flip

theorem count_nil (p : Event → Bool) : count p [] = 0 := rfl

theorem count_cons (p : Event → Bool) (e : Event) (t : List Event) :
    count p (e :: t) = count p t + (if p e then 1 else 0) := by
  simp [count, List.countP_cons]

/-! ## C3: open failure -/

/-- C3: if the video source fails to open, `show_camera` produces exactly the
descriptor print, the open attempt and one failure message, returning normally
(no exception), with no window created and no frame read. -/
theorem open_failure_no_window_no_read (env : Env) (fuel : Nat) (flip : Int)
    (h : env.opened = false) :
    show_camera env fuel flip =
      ([Event.printLine (defaultDesc flip), Event.openSource (defaultDesc flip),
        Event.printLine "Error: Unable to open camera"], Outcome.normal) ∧
    count isOpenErr (show_camera env fuel flip).1 = 1 ∧
    count isWindowCreate (show_camera env fuel flip).1 = 0 ∧
    count isRead (show_camera env fuel flip).1 = 0 := by
  have ht := show_camera_open_fail env fuel flip h
  refine ⟨ht, ?_, ?_, ?_⟩ <;> rw [ht] <;>
    simp [count_cons, count_nil, isOpenErr, isWindowCreate, isRead,
      defaultDesc_ne_openErr flip]

/-- Evaluation of C3 at a concrete oracle that fails to open. -/
theorem open_failure_no_window_no_read_witness :
    count isOpenErr (show_camera envOpenFail 3 0).1 = 1 ∧
    count isRead (show_camera envOpenFail 3 0).1 = 0 :=
  ⟨(open_failure_no_window_no_read envOpenFail 3 0 rfl).2.1,
   (open_failure_no_window_no_read envOpenFail 3 0 rfl).2.2.2⟩

/-! ## C5: fragments of the default descriptor -/

/-- C5: the descriptor of the default configuration (sensor 0, 1920x1080
capture and display, 60 fps, flip 0) contains `sensor-id=0` in its source
stage, the capture caps `width=(int)1920, height=(int)1080,
framerate=(fraction)60/1`, `flip-method=0` in its flip stage, and
`width=(int)1920, height=(int)1080` in the output caps that follow the flip
stage. -/
theorem default_pipeline_fragments :
    containsSubstr (gstreamer_pipeline 0 1920 1080 1920 1080 60 0)
      "nvarguscamerasrc sensor-id=0" = true ∧
    containsSubstr (gstreamer_pipeline 0 1920 1080 1920 1080 60 0)
      "width=(int)1920, height=(int)1080, framerate=(fraction)60/1" = true ∧
    containsSubstr (gstreamer_pipeline 0 1920 1080 1920 1080 60 0)
      "flip-method=0" = true ∧
    containsSubstr (gstreamer_pipeline 0 1920 1080 1920 1080 60 0)
      "flip-method=0 ! video/x-raw, width=(int)1920, height=(int)1080" = true := by
  set_option maxRecDepth 40000 in decide

/-! ## C8: the descriptor is always printed first -/

/-- C8: every invocation of `show_camera` first prints the built descriptor
and then attempts to open the source, on every path. -/
theorem descriptor_printed_first (env : Env) (fuel : Nat) (flip : Int) :
    ∃ rest, (show_camera env fuel flip).1 =
      Event.printLine (defaultDesc flip) :: Event.openSource (defaultDesc flip) :: rest := by
  cases hb : env.opened with
  | false =>
    refine ⟨[Event.printLine "Error: Unable to open camera"], ?_⟩
    rw [show_camera_open_fail env fuel flip hb]
  | true =>
    cases ho : (captureLoop env 0 fuel).2 with
    | fuelOut =>
      refine ⟨Event.namedWindow WINDOW_TITLE :: (captureLoop env 0 fuel).1, ?_⟩
      rw [show_camera_fuelOut env fuel flip hb ho]
      rfl
    | normal =>
      refine ⟨Event.namedWindow WINDOW_TITLE ::
        ((captureLoop env 0 fuel).1 ++ [Event.release, Event.destroyAllWindows]), ?_⟩
      rw [show_camera_opened env fuel flip hb (by rw [ho]; exact fun hc => Outcome.noConfusion hc)]
      simp
    | raised =>
      refine ⟨Event.namedWindow WINDOW_TITLE ::
        ((captureLoop env 0 fuel).1 ++ [Event.release, Event.destroyAllWindows]), ?_⟩
      rw [show_camera_opened env fuel flip hb (by rw [ho]; exact fun hc => Outcome.noConfusion hc)]
      simp

/-! ## C2: first read failure on iteration `k` -/

/-- C2: if iterations `1 .. k-1` (1-based) read, pass the window check, render
and see no exit key, and the read fails for the first time on iteration `k`,
then the trace is exactly `k-1` full iterations followed by the failed read,
one warning, and one release plus one destroy-all-windows afterwards; exactly
`k-1` frames were rendered. -/
theorem read_failure_renders_then_release (env : Env) (fuel k : Nat) (flip : Int)
    (hopen : env.opened = true) (hk : 1 ≤ k)
    (hcont : ∀ i, i < k - 1 → continuing env i)
    (hfail : env.readOk (k - 1) = false)
    (hfuel : k ≤ fuel) :
    (show_camera env fuel flip).1 =
      [Event.printLine (defaultDesc flip), Event.openSource (defaultDesc flip),
       Event.namedWindow WINDOW_TITLE] ++ blocksFrom env 0 (k - 1) ++
      [Event.readFrame false, Event.printLine "Warning: Failed to read frame from camera",
       Event.release, Event.destroyAllWindows] ∧
    count isRender (show_camera env fuel flip).1 = k - 1 ∧
    count isWarn (show_camera env fuel flip).1 = 1 ∧
    count isRelease (show_camera env fuel flip).1 = 1 ∧
    count isDestroy (show_camera env fuel flip).1 = 1 ∧
    (show_camera env fuel flip).2 = Outcome.normal := by
  have hcont' : ∀ m, m < k - 1 → continuing env (0 + m) := by
    intro m hm; simpa using hcont m hm
  have hloop := captureLoop_unroll env (k - 1) 0 (fuel - (k - 1)) hcont'
  have hjf : k - 1 + (fuel - (k - 1)) = fuel := by omega
  rw [hjf] at hloop
  have hfj : fuel - (k - 1) = (fuel - (k - 1) - 1) + 1 := by omega
  have hterm := captureLoop_read_fail env (0 + (k - 1)) (fuel - (k - 1) - 1)
    (by simpa using hfail)
  rw [hfj, hterm] at hloop
  have hout : (captureLoop env 0 fuel).2 = Outcome.normal := by rw [hloop]
  have hno : (captureLoop env 0 fuel).2 ≠ Outcome.fuelOut := by
    rw [hout]; exact fun hc => Outcome.noConfusion hc
  have hsc := show_camera_opened env fuel flip hopen hno
  have htr1 : (captureLoop env 0 fuel).1 = blocksFrom env 0 (k - 1) ++
      [Event.readFrame false,
       Event.printLine "Warning: Failed to read frame from camera"] := by
    rw [hloop]
  rw [htr1, hout] at hsc
  refine ⟨?_, ?_, ?_, ?_, ?_, ?_⟩
  · rw [hsc]; simp [List.append_assoc]
  · rw [hsc]
    simp [count_append, count_cons, count_nil, count_render_blocksFrom,
      isRender]
  · rw [hsc]
    simp [count_append, count_cons, count_nil, count_warn_blocksFrom,
      isWarn, isWarn_defaultDesc flip, defaultDesc_ne_warn flip]
  · rw [hsc]
    simp [count_append, count_cons, count_nil, count_release_blocksFrom,
      isRelease]
  · rw [hsc]
    simp [count_append, count_cons, count_nil, count_destroy_blocksFrom,
      isDestroy]
  · rw [hsc]

/-- Evaluation of C2 at a concrete oracle whose third read (k = 3) fails. -/
theorem read_failure_renders_then_release_witness :
    count isRender (show_camera envReadFail 10 0).1 = 2 ∧
    count isWarn (show_camera envReadFail 10 0).1 = 1 ∧
    count isRelease (show_camera envReadFail 10 0).1 = 1 :=
  ⟨(read_failure_renders_then_release envReadFail 10 3 0 rfl (by decide)
      (by decide) rfl (by decide)).2.1,
   (read_failure_renders_then_release envReadFail 10 3 0 rfl (by decide)
      (by decide) rfl (by decide)).2.2.1,
   (read_failure_renders_then_release envReadFail 10 3 0 rfl (by decide)
      (by decide) rfl (by decide)).2.2.2.1⟩

/-! ## C4: exit key terminates the loop on its own iteration -/

/-- C4: if iterations `0 .. k-1` (0-based) continue and on iteration `k` the
read succeeds, the window check passes, rendering succeeds, and the masked key
poll yields an exit key (escape or lowercase q), then the loop terminates on
iteration `k`: the trace is exactly `k+1` full iterations (the current frame
was rendered on the last one) followed by release and destroy — so exactly
`k+1` frames were read and exactly `k+1` rendered, none after iteration `k`. -/
theorem exit_key_terminates_iteration (env : Env) (fuel k : Nat) (flip : Int)
    (hopen : env.opened = true)
    (hcont : ∀ i, i < k → continuing env i)
    (hr : env.readOk k = true) (hw : 0 ≤ env.winProp k)
    (he : env.renderRaises k = false)
    (hkey : Int.land (env.keyRaw k) 255 ∈ EXIT_KEYS)
    (hfuel : k + 1 ≤ fuel) :
    (show_camera env fuel flip).1 =
      [Event.printLine (defaultDesc flip), Event.openSource (defaultDesc flip),
       Event.namedWindow WINDOW_TITLE] ++ blocksFrom env 0 k ++ iterBlock env k ++
      [Event.release, Event.destroyAllWindows] ∧
    count isRender (show_camera env fuel flip).1 = k + 1 ∧
    count isRead (show_camera env fuel flip).1 = k + 1 ∧
    (show_camera env fuel flip).2 = Outcome.normal := by
  have hcont' : ∀ m, m < k → continuing env (0 + m) := by
    intro m hm; simpa using hcont m hm
  have hloop := captureLoop_unroll env k 0 (fuel - k) hcont'
  have hjf : k + (fuel - k) = fuel := by omega
  rw [hjf] at hloop
  have hfj : fuel - k = (fuel - k - 1) + 1 := by omega
  have hterm := captureLoop_exit_key env (0 + k) (fuel - k - 1)
    (by simpa using hr) (by simpa using hw) (by simpa using he) (by simpa using hkey)
  rw [hfj, hterm] at hloop
  have hout : (captureLoop env 0 fuel).2 = Outcome.normal := by rw [hloop]
  have hno : (captureLoop env 0 fuel).2 ≠ Outcome.fuelOut := by
    rw [hout]; exact fun hc => Outcome.noConfusion hc
  have hsc := show_camera_opened env fuel flip hopen hno
  have htr1 : (captureLoop env 0 fuel).1 = blocksFrom env 0 k ++ iterBlock env k := by
    rw [hloop]; simp
  rw [htr1, hout] at hsc
  refine ⟨?_, ?_, ?_, ?_⟩
  · rw [hsc]; simp [List.append_assoc]
  · rw [hsc]
    simp [count_append, count_cons, count_nil, count_render_blocksFrom,
      count_render_iterBlock, isRender]
  · rw [hsc]
    simp [count_append, count_cons, count_nil, count_read_blocksFrom,
      count_read_iterBlock, isRead]
  · rw [hsc]

/-- Evaluation of C4 at a concrete oracle that reports the q key (raw code
`-399`, low byte 113) on iteration 2. -/
theorem exit_key_terminates_iteration_witness :
    count isRender (show_camera envExitKey 9 0).1 = 3 ∧
    count isRead (show_camera envExitKey 9 0).1 = 3 :=
  ⟨(exit_key_terminates_iteration envExitKey 9 2 0 rfl (by decide) rfl (by decide)
      rfl (by rw [int_land_255]; decide) (by decide)).2.1,
   (exit_key_terminates_iteration envExitKey 9 2 0 rfl (by decide) rfl (by decide)
      rfl (by rw [int_land_255]; decide) (by decide)).2.2.1⟩

/-! ## C7: window gone ends the loop silently -/

/-- C7: if iterations `0 .. k-1` continue and on iteration `k` the read
succeeds but the window-property check reports a negative value, the loop ends
on iteration `k` with no message — the whole run prints only the descriptor —
and the frame just read is not rendered (exactly `k` renders). -/
theorem window_gone_silent_end (env : Env) (fuel k : Nat) (flip : Int)
    (hopen : env.opened = true)
    (hcont : ∀ i, i < k → continuing env i)
    (hr : env.readOk k = true) (hw : env.winProp k < 0)
    (hfuel : k + 1 ≤ fuel) :
    (show_camera env fuel flip).1 =
      [Event.printLine (defaultDesc flip), Event.openSource (defaultDesc flip),
       Event.namedWindow WINDOW_TITLE] ++ blocksFrom env 0 k ++
      [Event.readFrame true, Event.winPropCheck (env.winProp k),
       Event.release, Event.destroyAllWindows] ∧
    count isRender (show_camera env fuel flip).1 = k ∧
    count isPrint (show_camera env fuel flip).1 = 1 ∧
    (show_camera env fuel flip).2 = Outcome.normal := by
  have hcont' : ∀ m, m < k → continuing env (0 + m) := by
    intro m hm; simpa using hcont m hm
  have hloop := captureLoop_unroll env k 0 (fuel - k) hcont'
  have hjf : k + (fuel - k) = fuel := by omega
  rw [hjf] at hloop
  have hfj : fuel - k = (fuel - k - 1) + 1 := by omega
  have hterm := captureLoop_win_gone env (0 + k) (fuel - k - 1)
    (by simpa using hr) (by simpa using hw)
  rw [hfj, hterm] at hloop
  have hout : (captureLoop env 0 fuel).2 = Outcome.normal := by rw [hloop]
  have hno : (captureLoop env 0 fuel).2 ≠ Outcome.fuelOut := by
    rw [hout]; exact fun hc => Outcome.noConfusion hc
  have hsc := show_camera_opened env fuel flip hopen hno
  have htr1 : (captureLoop env 0 fuel).1 = blocksFrom env 0 k ++
      [Event.readFrame true, Event.winPropCheck (env.winProp k)] := by
    rw [hloop]; simp
  rw [htr1, hout] at hsc
  refine ⟨?_, ?_, ?_, ?_⟩
  · rw [hsc]; simp [List.append_assoc]
  · rw [hsc]
    simp [count_append, count_cons, count_nil, count_render_blocksFrom, isRender]
  · rw [hsc]
    simp [count_append, count_cons, count_nil, count_print_blocksFrom, isPrint]
  · rw [hsc]

/-- Evaluation of C7 at a concrete oracle whose window vanishes on
iteration 1. -/
theorem window_gone_silent_end_witness :
    count isRender (show_camera envWinGone 7 0).1 = 1 ∧
    count isPrint (show_camera envWinGone 7 0).1 = 1 :=
  ⟨(window_gone_silent_end envWinGone 7 1 0 rfl (by decide) rfl (by decide)
      (by decide)).2.1,
   (window_gone_silent_end envWinGone 7 1 0 rfl (by decide) rfl (by decide)
      (by decide)).2.2.1⟩

/-! ## C1: release exactly once on every loop exit path -/

/-- C1 (amended): whenever the source opened and the loop exited — frame-read
failure, window gone, exit key, or an unhandled error during rendering — the
capture release and the destroy-all-windows call each occur exactly once; on
the open-failure path, however, the function returns before the `try` block
and performs no release at all. -/
theorem release_exactly_once_on_loop_exit (env : Env) (fuel : Nat) (flip : Int) :
    (env.opened = true → (show_camera env fuel flip).2 ≠ Outcome.fuelOut →
      count isRelease (show_camera env fuel flip).1 = 1 ∧
      count isDestroy (show_camera env fuel flip).1 = 1) ∧
    (env.opened = false →
      count isRelease (show_camera env fuel flip).1 = 0 ∧
      count isDestroy (show_camera env fuel flip).1 = 0) := by
  constructor
  · intro hopen hno
    have hno' : (captureLoop env 0 fuel).2 ≠ Outcome.fuelOut := by
      intro hc
      exact hno (by rw [show_camera_fuelOut env fuel flip hopen hc])
    have hsc := show_camera_opened env fuel flip hopen hno'
    rw [hsc]
    constructor
    · simp [count_append, count_cons, count_nil, count_release_captureLoop, isRelease]
    · simp [count_append, count_cons, count_nil, count_destroy_captureLoop, isDestroy]
  · intro hfail
    rw [show_camera_open_fail env fuel flip hfail]
    constructor <;> simp [count_cons, count_nil, isRelease, isDestroy]

/-- C1 counterexample: at a concrete oracle whose open fails, the run performs
no capture release and no window destruction at all — the partially acquired
capture handle is not released on the open-failure path, so the claim's
release-on-open-failure part is false. -/
theorem open_failure_performs_no_release :
    count isRelease (show_camera envOpenFail 5 0).1 = 0 ∧
    count isDestroy (show_camera envOpenFail 5 0).1 = 0 ∧
    ¬ count isRelease (show_camera envOpenFail 5 0).1 = 1 := by
  refine ⟨?_, ?_, ?_⟩ <;> decide

/-- Evaluation of C1 (amended) at concrete oracles: an unhandled render error
still releases exactly once; a failed open releases nothing. -/
theorem release_exactly_once_on_loop_exit_witness :
    count isRelease (show_camera envRaises 5 0).1 = 1 ∧
    count isDestroy (show_camera envRaises 5 0).1 = 1 ∧
    count isRelease (show_camera envOpenFail 5 0).1 = 0 :=
  ⟨((release_exactly_once_on_loop_exit envRaises 5 0).1 rfl (by decide)).1,
   ((release_exactly_once_on_loop_exit envRaises 5 0).1 rfl (by decide)).2,
   ((release_exactly_once_on_loop_exit envOpenFail 5 0).2 rfl).1⟩

/-! ## C10: the exit test sees only the low 8 bits of the key code -/

theorem exit_keys_eq : EXIT_KEYS = [27, 113] := rfl

/-- C10: when iteration `i` reads a frame, passes the window check and renders,
the loop exits on that iteration (its remaining trace contains exactly one
frame read, instead of at least two) if and only if the raw key-poll result is
27 (escape) or 113 (lowercase q) modulo 256 — the code masks the key code with
`& 0xFF`, which is reduction mod 256 on arbitrary integers, before testing
membership in the exit set. -/
theorem exit_iff_key_mod_256 (env : Env) (i fuel : Nat)
    (hr : env.readOk i = true) (hw : 0 ≤ env.winProp i)
    (he : env.renderRaises i = false) :
    count isRead (captureLoop env i (fuel + 2)).1 = 1 ↔
      (env.keyRaw i % 256 = 27 ∨ env.keyRaw i % 256 = 113) := by
  have hmask : Int.land (env.keyRaw i) 255 = env.keyRaw i % 256 := int_land_255 _
  rw [show fuel + 2 = (fuel + 1) + 1 from rfl]
  by_cases hk : Int.land (env.keyRaw i) 255 ∈ EXIT_KEYS
  · rw [captureLoop_exit_key env i (fuel + 1) hr hw he hk]
    have hc1 : count isRead (iterBlock env i, Outcome.normal).1 = 1 :=
      count_read_iterBlock env i
    rw [hc1]
    constructor
    · intro _
      rw [hmask, exit_keys_eq] at hk
      simpa using hk
    · intro _
      rfl
  · rw [captureLoop_continuing_step env i (fuel + 1) ⟨hr, hw, he, hk⟩]
    have hge := count_read_captureLoop_pos env fuel (i + 1)
    constructor
    · intro h1
      rw [count_append, count_read_iterBlock] at h1
      omega
    · intro hor
      exfalso
      apply hk
      rw [hmask, exit_keys_eq]
      rcases hor with h | h <;> simp [h]

/-- Evaluation of C10 at a concrete oracle: the raw key `-399` on iteration 2
has low byte 113, so the loop exits there. -/
theorem exit_iff_key_mod_256_witness :
    count isRead (captureLoop envExitKey 2 2).1 = 1 :=
  (exit_iff_key_mod_256 envExitKey 2 0 rfl (by decide) rfl).mpr (Or.inr (by decide))

/-! ## C9: the descriptor builder is pure and total -/

/-- C9: `gstreamer_pipeline` is deterministic — equal configurations give
byte-identical descriptor strings — and total with no error conditions:
arbitrary (for example negative) numeric inputs are simply rendered literally
into the string (shown here for the sensor index and flip code). -/
theorem pipeline_deterministic (s cw ch dw dh fr fm s2 cw2 ch2 dw2 dh2 fr2 fm2 : Int)
    (h : s = s2 ∧ cw = cw2 ∧ ch = ch2 ∧ dw = dw2 ∧ dh = dh2 ∧ fr = fr2 ∧ fm = fm2) :
    gstreamer_pipeline s cw ch dw dh fr fm =
      gstreamer_pipeline s2 cw2 ch2 dw2 dh2 fr2 fm2 ∧
    OccursIn (intRepr s) (gstreamer_pipeline s cw ch dw dh fr fm).data ∧
    OccursIn (intRepr fm) (gstreamer_pipeline s cw ch dw dh fr fm).data := by
  obtain ⟨h1, h2, h3, h4, h5, h6, h7⟩ := h
  subst h1; subst h2; subst h3; subst h4; subst h5; subst h6; subst h7
  refine ⟨rfl, ?_, ?_⟩
  · refine ⟨"nvarguscamerasrc sensor-id=".data,
      " ! video/x-raw(memory:NVMM), width=(int)".data ++ intRepr cw ++
      ", height=(int)".data ++ intRepr ch ++
      ", framerate=(fraction)".data ++ intRepr fr ++
      "/1 ! nvvidconv flip-method=".data ++ intRepr fm ++
      " ! video/x-raw, width=(int)".data ++ intRepr dw ++
      ", height=(int)".data ++ intRepr dh ++
      ", format=(string)BGRx ! videoconvert ! video/x-raw, format=(string)BGR ! appsink".data,
      ?_⟩
    show ("nvarguscamerasrc sensor-id=".data ++ intRepr s ++
      " ! video/x-raw(memory:NVMM), width=(int)".data ++ intRepr cw ++
      ", height=(int)".data ++ intRepr ch ++
      ", framerate=(fraction)".data ++ intRepr fr ++
      "/1 ! nvvidconv flip-method=".data ++ intRepr fm ++
      " ! video/x-raw, width=(int)".data ++ intRepr dw ++
      ", height=(int)".data ++ intRepr dh ++
      ", format=(string)BGRx ! videoconvert ! video/x-raw, format=(string)BGR ! appsink".data)
      = _
    simp only [List.append_assoc]
  · refine ⟨"nvarguscamerasrc sensor-id=".data ++ intRepr s ++
      " ! video/x-raw(memory:NVMM), width=(int)".data ++ intRepr cw ++
      ", height=(int)".data ++ intRepr ch ++
      ", framerate=(fraction)".data ++ intRepr fr ++
      "/1 ! nvvidconv flip-method=".data,
      " ! video/x-raw, width=(int)".data ++ intRepr dw ++
      ", height=(int)".data ++ intRepr dh ++
      ", format=(string)BGRx ! videoconvert ! video/x-raw, format=(string)BGR ! appsink".data,
      ?_⟩
    show ("nvarguscamerasrc sensor-id=".data ++ intRepr s ++
      " ! video/x-raw(memory:NVMM), width=(int)".data ++ intRepr cw ++
      ", height=(int)".data ++ intRepr ch ++
      ", framerate=(fraction)".data ++ intRepr fr ++
      "/1 ! nvvidconv flip-method=".data ++ intRepr fm ++
      " ! video/x-raw, width=(int)".data ++ intRepr dw ++
      ", height=(int)".data ++ intRepr dh ++
      ", format=(string)BGRx ! videoconvert ! video/x-raw, format=(string)BGR ! appsink".data)
      = _
    simp only [List.append_assoc]

/-- Evaluation of C9 at a concrete configuration with a negative sensor
index. -/
theorem pipeline_deterministic_witness :
    gstreamer_pipeline (-7) 640 480 320 240 30 2 =
      gstreamer_pipeline (-7) 640 480 320 240 30 2 ∧
    OccursIn (intRepr (-7)) (gstreamer_pipeline (-7) 640 480 320 240 30 2).data ∧
    OccursIn (intRepr 2) (gstreamer_pipeline (-7) 640 480 320 240 30 2).data :=
  pipeline_deterministic (-7) 640 480 320 240 30 2 (-7) 640 480 320 240 30 2
    ⟨rfl, rfl, rfl, rfl, rfl, rfl, rfl⟩

/-! ## C6: template structure of the descriptor -/

theorem occursIn_append_right (pat x y : List Char) :
    OccursIn pat x → OccursIn pat (x ++ y) := by
  rintro ⟨a, b, h⟩
  exact ⟨a, b ++ y, by rw [h]; simp [List.append_assoc]⟩

theorem occursIn_append_left (pat x y : List Char) :
    OccursIn pat y → OccursIn pat (x ++ y) := by
  rintro ⟨a, b, h⟩
  exact ⟨x ++ a, b, by rw [h]; simp [List.append_assoc]⟩

/-- C6: the descriptor is the rendering of the fixed format template whose
`%d` slots are exactly the seven configuration parameters — sensor index,
capture width, capture height, frame rate, flip code, display width, display
height — once each and in that (documented) stage order, and the literal text
contains the stage keywords `nvarguscamerasrc` (source), `nvvidconv`
(hardware conversion/flip), `video/x-raw` (format caps), `videoconvert`
(software conversion) and `appsink` (sink), for every configuration. -/
theorem pipeline_template_structure (s cw ch dw dh fr fm : Int) :
    (gstreamer_pipeline s cw ch dw dh fr fm).data =
      renderTemplate (fieldValue s cw ch dw dh fr fm) pipelineTemplate ∧
    templateSlots pipelineTemplate =
      [Field.sensorId, Field.captureWidth, Field.captureHeight, Field.framerate,
       Field.flipMethod, Field.displayWidth, Field.displayHeight] ∧
    OccursIn "nvarguscamerasrc".data (gstreamer_pipeline s cw ch dw dh fr fm).data ∧
    OccursIn "nvvidconv".data (gstreamer_pipeline s cw ch dw dh fr fm).data ∧
    OccursIn "video/x-raw".data (gstreamer_pipeline s cw ch dw dh fr fm).data ∧
    OccursIn "videoconvert".data (gstreamer_pipeline s cw ch dw dh fr fm).data ∧
    OccursIn "appsink".data (gstreamer_pipeline s cw ch dw dh fr fm).data := by
  refine ⟨?_, rfl, ?_, ?_, ?_, ?_, ?_⟩
  · show ("nvarguscamerasrc sensor-id=".data ++ intRepr s ++
      " ! video/x-raw(memory:NVMM), width=(int)".data ++ intRepr cw ++
      ", height=(int)".data ++ intRepr ch ++
      ", framerate=(fraction)".data ++ intRepr fr ++
      "/1 ! nvvidconv flip-method=".data ++ intRepr fm ++
      " ! video/x-raw, width=(int)".data ++ intRepr dw ++
      ", height=(int)".data ++ intRepr dh ++
      ", format=(string)BGRx ! videoconvert ! video/x-raw, format=(string)BGR ! appsink".data)
      = _
    simp only [renderTemplate, renderPiece, pipelineTemplate, fieldValue,
      List.append_assoc, List.append_nil]
  all_goals show OccursIn _ ("nvarguscamerasrc sensor-id=".data ++ intRepr s ++
       " ! video/x-raw(memory:NVMM), width=(int)".data ++ intRepr cw ++
       ", height=(int)".data ++ intRepr ch ++
       ", framerate=(fraction)".data ++ intRepr fr ++
       "/1 ! nvvidconv flip-method=".data ++ intRepr fm ++
       " ! video/x-raw, width=(int)".data ++ intRepr dw ++
       ", height=(int)".data ++ intRepr dh ++
       ", format=(string)BGRx ! videoconvert ! video/x-raw, format=(string)BGR ! appsink".data)
  · -- nvarguscamerasrc: inside the first literal segment
    apply occursIn_append_right
    apply occursIn_append_right
    apply occursIn_append_right
    apply occursIn_append_right
    apply occursIn_append_right
    apply occursIn_append_right
    apply occursIn_append_right
    apply occursIn_append_right
    apply occursIn_append_right
    apply occursIn_append_right
    apply occursIn_append_right
    apply occursIn_append_right
    apply occursIn_append_right
    apply occursIn_append_right
    exact ⟨[], " sensor-id=".data, by decide⟩
  · -- nvvidconv: inside the fifth literal segment
    apply occursIn_append_right
    apply occursIn_append_right
    apply occursIn_append_right
    apply occursIn_append_right
    apply occursIn_append_right
    apply occursIn_append_right
    apply occursIn_append_left
    exact ⟨"/1 ! ".data, " flip-method=".data, by decide⟩
  · -- video/x-raw: inside the second literal segment
    apply occursIn_append_right
    apply occursIn_append_right
    apply occursIn_append_right
    apply occursIn_append_right
    apply occursIn_append_right
    apply occursIn_append_right
    apply occursIn_append_right
    apply occursIn_append_right
    apply occursIn_append_right
    apply occursIn_append_right
    apply occursIn_append_right
    apply occursIn_append_right
    apply occursIn_append_left
    exact ⟨" ! ".data, "(memory:NVMM), width=(int)".data, by decide⟩
  · -- videoconvert: inside the final literal segment
    apply occursIn_append_left
    exact ⟨", format=(string)BGRx ! ".data,
      " ! video/x-raw, format=(string)BGR ! appsink".data, by decide⟩
  · -- appsink: at the end of the final literal segment
    apply occursIn_append_left
    exact ⟨", format=(string)BGRx ! videoconvert ! video/x-raw, format=(string)BGR ! ".data,
      [], by decide⟩

end Camera
